import Mathlib

/-
Shallow embedding of the room-based chat relay (src/main.go).

Go maps are modelled as association lists with at most one entry per key
(lookupA / insertA / eraseA mirror map read, map write and delete).
Go pointers to User records are modelled through an explicit heap:
the users, clients and rooms registries hold user ids, and the heap maps
id to the record, so that a mutation through one registry is visible
through the others, exactly as with shared Go pointers.

A websocket connection is an opaque identifier (Nat).  Each handler takes
the server state and the originating connection and returns
Option (ServerState × List (Nat × Message)): the new state together with
the ordered list of WriteJSON outputs (connection, message).  The result
none models a nil-pointer dereference in the Go code, which panics and
aborts the whole process.
-/

namespace Chat

/-- Association-list lookup, mirroring a Go map read. -/
def lookupA {α β : Type} [DecidableEq α] : List (α × β) → α → Option β
  | [], _ => none
  | (k, v) :: t, k2 => if k = k2 then some v else lookupA t k2

/-- Association-list insert or replace, mirroring a Go map write. -/
def insertA {α β : Type} [DecidableEq α] : List (α × β) → α → β → List (α × β)
  | [], k, v => [(k, v)]
  | (k2, v2) :: t, k, v => if k2 = k then (k, v) :: t else (k2, v2) :: insertA t k v

/-- Association-list removal, mirroring a Go map delete. -/
def eraseA {α β : Type} [DecidableEq α] : List (α × β) → α → List (α × β)
  | [], _ => []
  | (k2, v2) :: t, k => if k2 = k then t else (k2, v2) :: eraseA t k

/-- The wire event record (struct Message in main.go): fields Type, Sender,
Target, Content, Room. -/
structure Message where
  mtype : String := ""
  sender : String := ""
  target : String := ""
  content : String := ""
  room : String := ""
deriving DecidableEq

/-- The User record (struct User in main.go): Username, Password, Conn, Room.
Conn is a nullable pointer in Go, hence Option. -/
structure UserRec where
  username : String := ""
  password : String := ""
  conn : Option Nat := none
  room : String := ""
deriving DecidableEq

/-- The global server state: the three registries (users, clients, rooms),
the heap of User records reachable through shared pointers, the per-room
history files (room name to file contents; absent key means no file yet),
and an allocator for fresh user ids. -/
structure ServerState where
  users : List (String × Nat)
  clients : List (Nat × Nat)
  rooms : List (String × List Nat)
  heap : List (Nat × UserRec)
  files : List (String × String)
  nextId : Nat
deriving DecidableEq

def errMsg (c : String) : Message := { mtype := "error", content := c }

def infoMsg (c : String) : Message := { mtype := "info", content := c }

def historyMsg (c : String) : Message := { mtype := "history", content := c }

/-- One line of a history file as written by saveMessageToFile, without the
trailing newline. -/
def lineOf (m : Message) : String :=
  "[" ++ m.room ++ "] " ++ m.sender ++ ": " ++ m.content

/-- The full record written by saveMessageToFile:
fmt.Sprintf of the bracketed room, the sender, the content, and a newline. -/
def formatLine (m : Message) : String := lineOf m ++ "\n"

/-- saveMessageToFile: open the room file for append (creating it when
absent) and append one formatted line. -/
def saveMessageToFile (files : List (String × String)) (m : Message) :
    List (String × String) :=
  insertA files m.room (((lookupA files m.room).getD "") ++ formatLine m)

/-- Drop one trailing carriage return, as the dropCR step of
bufio.ScanLines does on every line. -/
def dropCRC (l : List Char) : List Char :=
  if l.getLast? = some '\r' then l.dropLast else l

/-- Accumulator worker for scanLines: split at each newline character,
dropping one trailing carriage return per line; a final non-empty chunk
without a newline is still yielded, a final empty chunk is not. -/
def scanLinesAux : List Char → List Char → List String
  | [], acc => if acc = [] then [] else [String.mk (dropCRC acc.reverse)]
  | c :: rest, acc =>
    if c = '\n' then String.mk (dropCRC acc.reverse) :: scanLinesAux rest []
    else scanLinesAux rest (c :: acc)

/-- The line sequence bufio.Scanner yields on the given file contents. -/
def scanLines (s : String) : List String := scanLinesAux s.toList []

/-- sendChatHistory: read the room file (absent file means no history) and
emit one history event per line, in file order. -/
def sendChatHistory (files : List (String × String)) (room : String) :
    List Message :=
  (scanLines ((lookupA files room).getD "")).map historyMsg

/-- handleSignup: reject an existing username, otherwise allocate the User
record with the given password, Conn left nil and Room empty. -/
def handleSignup (s : ServerState) (ws : Nat) (msg : Message) :
    Option (ServerState × List (Nat × Message)) :=
  match lookupA s.users msg.sender with
  | some _ => some (s, [(ws, errMsg "Username already exists")])
  | none =>
    let uid := s.nextId
    let u : UserRec := { username := msg.sender, password := msg.content }
    some ({ s with users := insertA s.users msg.sender uid,
                   heap := insertA s.heap uid u,
                   nextId := uid + 1 },
          [(ws, infoMsg "Signup successful")])

/-- handleSignin: on a known username with matching password, bind the
connection to that User record in the clients registry.  The Conn field of
the record is not touched. -/
def handleSignin (s : ServerState) (ws : Nat) (msg : Message) :
    Option (ServerState × List (Nat × Message)) :=
  match lookupA s.users msg.sender with
  | none => some (s, [(ws, errMsg "Invalid username or password")])
  | some uid =>
    match lookupA s.heap uid with
    | none => none
    | some u =>
      if u.password = msg.content then
        some ({ s with clients := insertA s.clients ws uid },
              [(ws, infoMsg "Signin successful")])
      else
        some (s, [(ws, errMsg "Invalid username or password")])

/-- handleSignout: unconditionally delete the connection from the clients
registry and report success. -/
def handleSignout (s : ServerState) (ws : Nat) :
    Option (ServerState × List (Nat × Message)) :=
  some ({ s with clients := eraseA s.clients ws },
        [(ws, infoMsg "Signout successful")])

/-- handleCreateRoom: reject an existing room name, otherwise create the
room with an empty member list. -/
def handleCreateRoom (s : ServerState) (ws : Nat) (msg : Message) :
    Option (ServerState × List (Nat × Message)) :=
  match lookupA s.rooms msg.content with
  | some _ => some (s, [(ws, errMsg "Room already exists")])
  | none =>
    some ({ s with rooms := insertA s.rooms msg.content [] },
          [(ws, infoMsg "Room created successfully")])

/-- handleJoinRoom: error when the room does not exist; otherwise read the
bound session (nil dereference, hence none, when the connection is not in
clients), set its Room field, append it to the member list, replay the
history file to the joining connection, then report success. -/
def handleJoinRoom (s : ServerState) (ws : Nat) (msg : Message) :
    Option (ServerState × List (Nat × Message)) :=
  match lookupA s.rooms msg.content with
  | none => some (s, [(ws, errMsg "Room does not exist")])
  | some mem =>
    match lookupA s.clients ws with
    | none => none
    | some uid =>
      match lookupA s.heap uid with
      | none => none
      | some u =>
        some ({ s with heap := insertA s.heap uid { u with room := msg.content },
                       rooms := insertA s.rooms msg.content (mem ++ [uid]) },
              (sendChatHistory s.files msg.content).map (fun h => (ws, h)) ++
                [(ws, infoMsg "Joined room successfully")])

/-- Remove the first member whose Username equals the given name, as the
loop in handleLeaveRoom does; no match leaves the list unchanged. -/
def removeFirstByName (heap : List (Nat × UserRec)) (name : String) :
    List Nat → List Nat
  | [] => []
  | uid :: rest =>
    if (lookupA heap uid).map UserRec.username = some name then rest
    else uid :: removeFirstByName heap name rest

/-- handleLeaveRoom: read the bound session (none models the nil
dereference when unbound); when its Room is not a key of the rooms
registry report the not-in-a-room error; otherwise remove the first member
with the same username, clear the Room field and report success. -/
def handleLeaveRoom (s : ServerState) (ws : Nat) :
    Option (ServerState × List (Nat × Message)) :=
  match lookupA s.clients ws with
  | none => none
  | some uid =>
    match lookupA s.heap uid with
    | none => none
    | some u =>
      match lookupA s.rooms u.room with
      | none => some (s, [(ws, errMsg "You are not in a room")])
      | some mem =>
        some ({ s with rooms := insertA s.rooms u.room (removeFirstByName s.heap u.username mem),
                       heap := insertA s.heap uid { u with room := "" } },
              [(ws, infoMsg "Left room successfully")])

/-- The fanout loop of handleChat over the member list: a dm is skipped for
every member whose username differs from both the declared Target and the
declared Sender; pushing to a member whose Conn is nil is a nil dereference
(none); a push to a connection in fails errors, upon which that connection
is deleted from the clients registry and the loop continues. -/
def fanout (heap : List (Nat × UserRec)) (fails : List Nat) (m : Message) :
    List Nat → List (Nat × Nat) → List (Nat × Message) →
    Option (List (Nat × Nat) × List (Nat × Message))
  | [], clients, out => some (clients, out)
  | uid :: rest, clients, out =>
    match lookupA heap uid with
    | none => none
    | some u =>
      if m.mtype = "dm" ∧ u.username ≠ m.target ∧ u.username ≠ m.sender then
        fanout heap fails m rest clients out
      else
        match u.conn with
        | none => none
        | some c =>
          if c ∈ fails then fanout heap fails m rest (eraseA clients c) out
          else fanout heap fails m rest clients (out ++ [(c, m)])

/-- handleChat: read the bound session (none models the nil dereference
when unbound); error to the sender when its Room is empty; otherwise stamp
the Room onto the message, fan it out to the member list and append the
message to the room history file.  fails is the set of connections whose
WriteJSON errors. -/
def handleChat (s : ServerState) (ws : Nat) (msg : Message) (fails : List Nat) :
    Option (ServerState × List (Nat × Message)) :=
  match lookupA s.clients ws with
  | none => none
  | some uid =>
    match lookupA s.heap uid with
    | none => none
    | some u =>
      if u.room = "" then some (s, [(ws, errMsg "You are not in a room")])
      else
        let m := { msg with room := u.room }
        match fanout s.heap fails m ((lookupA s.rooms u.room).getD []) s.clients [] with
        | none => none
        | some (clients2, out) =>
          some ({ s with clients := clients2,
                         files := saveMessageToFile s.files m }, out)

/-- The event dispatch of handleConnections: route by the Type field; an
unrecognized type is silently ignored. -/
def handleEvent (s : ServerState) (ws : Nat) (msg : Message) (fails : List Nat) :
    Option (ServerState × List (Nat × Message)) :=
  if msg.mtype = "signup" then handleSignup s ws msg
  else if msg.mtype = "signin" then handleSignin s ws msg
  else if msg.mtype = "signout" then handleSignout s ws
  else if msg.mtype = "create_room" then handleCreateRoom s ws msg
  else if msg.mtype = "join_room" then handleJoinRoom s ws msg
  else if msg.mtype = "leave_room" then handleLeaveRoom s ws
  else if msg.mtype = "broadcast" ∨ msg.mtype = "dm" then handleChat s ws msg fails
  else some (s, [])

/-- Concatenation of the formatted lines of a list of messages: the file
contents produced by appending each of them in order to an empty file. -/
def concatLines : List Message → String
  | [] => ""
  | m :: t => formatLine m ++ concatLines t

theorem lookupA_insertA_self {α β : Type} [DecidableEq α]
    (l : List (α × β)) (k : α) (v : β) :
    lookupA (insertA l k v) k = some v := by
  induction l with
  | nil => simp [insertA, lookupA]
  | cons p t ih =>
    obtain ⟨k2, v2⟩ := p
    by_cases h : k2 = k
    · simp [insertA, h, lookupA]
    · simp [insertA, h, lookupA, ih]

theorem lookupA_insertA_ne {α β : Type} [DecidableEq α]
    (l : List (α × β)) (k k2 : α) (v : β) (h : k ≠ k2) :
    lookupA (insertA l k v) k2 = lookupA l k2 := by
  induction l with
  | nil => simp [insertA, lookupA, h]
  | cons p t ih =>
    obtain ⟨k3, v3⟩ := p
    by_cases h3 : k3 = k
    · subst h3
      simp [insertA, lookupA, h]
    · simp only [insertA, if_neg h3, lookupA]
      by_cases h4 : k3 = k2 <;> simp [h4, ih]

theorem getLastMem {α : Type} : ∀ {l : List α} {a : α}, l.getLast? = some a → a ∈ l
  | [], _, h => by simp [List.getLast?] at h
  | [x], a, h => by
    simp [List.getLast?] at h
    simp [h]
  | x :: y :: t, a, h => by
    rw [List.getLast?_cons_cons] at h
    exact List.mem_cons_of_mem _ (getLastMem h)

theorem string_toList_append (a b : String) :
    (a ++ b).toList = a.toList ++ b.toList := by
  cases a
  cases b
  rfl

theorem string_ext {a b : String} (h : a.toList = b.toList) : a = b := by
  cases a
  cases b
  simp only [String.toList] at h
  rw [h]

theorem dropCRC_eq_self {l : List Char} (h : '\r' ∉ l) : dropCRC l = l := by
  unfold dropCRC
  rw [if_neg]
  intro hl
  exact h (getLastMem hl)

theorem scanLinesAux_line (l : List Char) (rest : List Char) (acc : List Char)
    (h : '\n' ∉ l) :
    scanLinesAux (l ++ '\n' :: rest) acc =
      String.mk (dropCRC (acc.reverse ++ l)) :: scanLinesAux rest [] := by
  induction l generalizing acc with
  | nil => simp [scanLinesAux]
  | cons c t ih =>
    have hc : ¬ (c = '\n') := fun hh => h (by simp [hh])
    have ht : '\n' ∉ t := fun hm => h (by simp [hm])
    show scanLinesAux (c :: (t ++ '\n' :: rest)) acc = _
    rw [scanLinesAux, if_neg hc, ih _ ht]
    simp [List.append_assoc]

theorem scanLines_cons_line (line rest : String)
    (h1 : '\n' ∉ line.toList) (h2 : '\r' ∉ line.toList) :
    scanLines (line ++ "\n" ++ rest) = line :: scanLines rest := by
  unfold scanLines
  have ht : (line ++ "\n" ++ rest).toList = line.toList ++ '\n' :: rest.toList := by
    rw [string_toList_append, string_toList_append, List.append_assoc]
    rfl
  rw [ht, scanLinesAux_line _ _ _ h1]
  rw [List.reverse_nil, List.nil_append, dropCRC_eq_self h2]
  rfl

/-- A concrete three-member state used by the evaluation witnesses: alice,
bob and carol signed up (ids 0, 1, 2), signed in on connections 10, 11, 12
and all members of room lobby. -/
def aliceR : UserRec := { username := "alice", password := "p", conn := some 10, room := "lobby" }

def bobR : UserRec := { username := "bob", password := "p", conn := some 11, room := "lobby" }

def carolR : UserRec := { username := "carol", password := "p", conn := some 12, room := "lobby" }

def exState : ServerState :=
  { users := [("alice", 0), ("bob", 1), ("carol", 2)],
    clients := [(10, 0), (11, 1), (12, 2)],
    rooms := [("lobby", [0, 1, 2])],
    heap := [(0, aliceR), (1, bobR), (2, carolR)],
    files := [],
    nextId := 3 }

/-- C1: in a room whose member list is exactly the three sessions A, B, C
with pairwise distinct usernames and live connections, a broadcast from the
member A is delivered to A, B and C, and a dm from A declaring target B is
delivered exactly to the members named A or B, skipping C. -/
theorem broadcast_and_dm_delivery
    (s : ServerState) (ws ca cb cc ia ib ic : Nat) (A B C : UserRec)
    (r cnt : String)
    (hws : lookupA s.clients ws = some ia)
    (hA : lookupA s.heap ia = some A)
    (hB : lookupA s.heap ib = some B)
    (hC : lookupA s.heap ic = some C)
    (hAroom : A.room = r) (hr : r ≠ "")
    (hmem : lookupA s.rooms r = some [ia, ib, ic])
    (hAc : A.conn = some ca) (hBc : B.conn = some cb) (hCc : C.conn = some cc)
    (hAB : A.username ≠ B.username) (hAC : A.username ≠ C.username)
    (hBC : B.username ≠ C.username) :
    (handleChat s ws { mtype := "broadcast", sender := A.username, content := cnt } []).map Prod.snd =
      some [(ca, { mtype := "broadcast", sender := A.username, content := cnt, room := r }),
            (cb, { mtype := "broadcast", sender := A.username, content := cnt, room := r }),
            (cc, { mtype := "broadcast", sender := A.username, content := cnt, room := r })] ∧
    (handleChat s ws { mtype := "dm", sender := A.username, target := B.username, content := cnt } []).map Prod.snd =
      some [(ca, { mtype := "dm", sender := A.username, target := B.username, content := cnt, room := r }),
            (cb, { mtype := "dm", sender := A.username, target := B.username, content := cnt, room := r })] := by
  have hBA : B.username ≠ A.username := hAB.symm
  have hCA : C.username ≠ A.username := hAC.symm
  have hCB : C.username ≠ B.username := hBC.symm
  constructor
  · simp [handleChat, hws, hA, hAroom, hr, hmem, fanout, hB, hC, hAc, hBc, hCc]
  · simp [handleChat, hws, hA, hAroom, hr, hmem, fanout, hB, hC, hAc, hBc, hCc,
      hBA, hCA, hCB]

/-- Witness for C1 at the concrete three-member state. -/
theorem broadcast_and_dm_delivery_witness :
    (handleChat exState 10 { mtype := "broadcast", sender := "alice", content := "hi" } []).map Prod.snd =
      some [(10, { mtype := "broadcast", sender := "alice", content := "hi", room := "lobby" }),
            (11, { mtype := "broadcast", sender := "alice", content := "hi", room := "lobby" }),
            (12, { mtype := "broadcast", sender := "alice", content := "hi", room := "lobby" })] ∧
    (handleChat exState 10 { mtype := "dm", sender := "alice", target := "bob", content := "hi" } []).map Prod.snd =
      some [(10, { mtype := "dm", sender := "alice", target := "bob", content := "hi", room := "lobby" }),
            (11, { mtype := "dm", sender := "alice", target := "bob", content := "hi", room := "lobby" })] :=
  broadcast_and_dm_delivery exState 10 10 11 12 0 1 2 aliceR bobR carolR "lobby" "hi"
    (by decide) (by decide) (by decide) (by decide) (by decide) (by decide) (by decide)
    (by decide) (by decide) (by decide) (by decide) (by decide) (by decide)

def emptyState : ServerState :=
  { users := [], clients := [], rooms := [], heap := [], files := [], nextId := 0 }

/-- C2: evaluating signup then signin from the empty state shows that the
clients registry binds the connection key 0 to a User record whose Conn
field is still nil: handleSignin inserts the mapping but never assigns the
Conn field, so no Session record holds the connection that keys it. -/
theorem signin_leaves_conn_nil :
    ((handleSignup emptyState 0 { mtype := "signup", sender := "alice", content := "pw1" }).bind
      fun r1 => (handleSignin r1.1 0 { mtype := "signin", sender := "alice", content := "pw1" }).bind
        fun r2 => (lookupA r2.1.clients 0).bind
          fun uid => (lookupA r2.1.heap uid).map
            fun u => u.conn) = some none := by decide

/-- State for C3: alice (id 0) bound on connection 7, currently in room a
which lists her as its only member; room b exists and is empty. -/
def cs3 : ServerState :=
  { users := [("alice", 0)],
    clients := [(7, 0)],
    rooms := [("a", [0]), ("b", [])],
    heap := [(0, { username := "alice", password := "pw", conn := some 7, room := "a" })],
    files := [],
    nextId := 1 }

/-- C3 counterexample: after the session in room a joins room b, it is a
member of both rooms at once (member lists [0] and [0]) while its Room
field reads b, refuting membership in at most one room at a time. -/
theorem join_both_rooms_counterexample :
    (handleJoinRoom cs3 7 { mtype := "join_room", content := "b" }).map
        (fun r2 => (lookupA r2.1.rooms "a", lookupA r2.1.rooms "b",
                    (lookupA r2.1.heap 0).map UserRec.room)) =
      some (some [0], some [0], some "b") := by decide

/-- C3 amended: joining room b from room a appends the session to the
member list of b and sets its Room field to b, but does not remove it from
the member list of a: the session then appears in both lists, and the Room
field names only the most recently joined room. -/
theorem join_appends_without_removing
    (s : ServerState) (ws ia : Nat) (u : UserRec) (a b : String)
    (memA memB : List Nat)
    (hws : lookupA s.clients ws = some ia)
    (hu : lookupA s.heap ia = some u)
    (hur : u.room = a) (hab : a ≠ b)
    (hA : lookupA s.rooms a = some memA) (hmemA : ia ∈ memA)
    (hB : lookupA s.rooms b = some memB) :
    (handleJoinRoom s ws { mtype := "join_room", content := b }).map
        (fun r2 => (lookupA r2.1.rooms a, lookupA r2.1.rooms b,
                    (lookupA r2.1.heap ia).map UserRec.room)) =
      some (some memA, some (memB ++ [ia]), some b) := by
  have hba : b ≠ a := hab.symm
  simp [handleJoinRoom, hB, hws, hu, lookupA_insertA_self,
    lookupA_insertA_ne _ _ _ _ hba, hA]

/-- Witness for the amended C3 at the concrete state cs3. -/
theorem join_appends_without_removing_witness :
    (handleJoinRoom cs3 7 { mtype := "join_room", content := "b" }).map
        (fun r2 => (lookupA r2.1.rooms "a", lookupA r2.1.rooms "b",
                    (lookupA r2.1.heap 0).map UserRec.room)) =
      some (some [0], some ([] ++ [0]), some "b") :=
  join_appends_without_removing cs3 7 0
    { username := "alice", password := "pw", conn := some 7, room := "a" }
    "a" "b" [0] []
    (by decide) (by decide) (by decide) (by decide) (by decide) (by decide) (by decide)

/-- State for the C4 counterexample: alice (id 0) bound on connection 7
with an empty Room field, while a room named by the empty string exists. -/
def cs4 : ServerState :=
  { users := [("alice", 0)],
    clients := [(7, 0)],
    rooms := [("", [])],
    heap := [(0, { username := "alice", password := "pw", conn := some 7, room := "" })],
    files := [],
    nextId := 1 }

/-- C4 counterexample: with a room named by the empty string present, a
bound session that is in no room gets the leave success info event from
leave_room, not the NotInRoom error. -/
theorem leave_no_room_counterexample :
    (handleLeaveRoom cs4 7).map Prod.snd = some [(7, infoMsg "Left room successfully")] ∧
    (handleLeaveRoom cs4 7).map Prod.snd ≠ some [(7, errMsg "You are not in a room")] := by
  decide

/-- C4 amended: provided no room named by the empty string exists,
leave_room from a bound session whose Room field is empty yields the
NotInRoom error to the originating connection and returns the state
entirely unchanged. -/
theorem leave_room_not_in_room
    (s : ServerState) (ws uid : Nat) (u : UserRec)
    (hws : lookupA s.clients ws = some uid)
    (hu : lookupA s.heap uid = some u)
    (hur : u.room = "")
    (hnr : lookupA s.rooms "" = none) :
    handleLeaveRoom s ws = some (s, [(ws, errMsg "You are not in a room")]) := by
  simp [handleLeaveRoom, hws, hu, hur, hnr]

/-- State for the C4 witness: as cs4 but the only room is lobby, so no room
named by the empty string exists. -/
def cs4b : ServerState :=
  { users := [("alice", 0)],
    clients := [(7, 0)],
    rooms := [("lobby", [])],
    heap := [(0, { username := "alice", password := "pw", conn := some 7, room := "" })],
    files := [],
    nextId := 1 }

/-- Witness for the amended C4 at the concrete state cs4b. -/
theorem leave_room_not_in_room_witness :
    handleLeaveRoom cs4b 7 = some (cs4b, [(7, errMsg "You are not in a room")]) :=
  leave_room_not_in_room cs4b 7 0
    { username := "alice", password := "pw", conn := some 7, room := "" }
    (by decide) (by decide) (by decide) (by decide)

/-- C5: a successful join_room on an existing room emits to the joining
connection exactly one history event per line of the history file, in file
(write) order, followed by the info success event, and emits nothing to any
other connection. -/
theorem join_room_replays_history
    (s : ServerState) (ws uid : Nat) (u : UserRec) (r body : String)
    (mem : List Nat)
    (hr : lookupA s.rooms r = some mem)
    (hws : lookupA s.clients ws = some uid)
    (hu : lookupA s.heap uid = some u)
    (hf : lookupA s.files r = some body) :
    ∃ s2, handleJoinRoom s ws { mtype := "join_room", content := r } =
        some (s2, (scanLines body).map (fun l => (ws, historyMsg l)) ++
                  [(ws, infoMsg "Joined room successfully")]) ∧
      ∀ p ∈ (scanLines body).map (fun l => (ws, historyMsg l)) ++
            [(ws, infoMsg "Joined room successfully")], p.1 = ws := by
  refine ⟨({ s with heap := insertA s.heap uid { u with room := r },
                    rooms := insertA s.rooms r (mem ++ [uid]) } : ServerState), ?_, ?_⟩
  · simp [handleJoinRoom, hr, hws, hu, sendChatHistory, hf]
  · intro p hp
    rcases List.mem_append.1 hp with h | h
    · obtain ⟨l, _, hl⟩ := List.mem_map.1 h
      rw [← hl]
    · simp at h
      rw [h]

/-- State for the C5 witness: alice bound on connection 7, room lobby
exists with a two-line history file. -/
def cs5 : ServerState :=
  { users := [("alice", 0)],
    clients := [(7, 0)],
    rooms := [("lobby", [])],
    heap := [(0, { username := "alice", password := "pw", conn := some 7, room := "" })],
    files := [("lobby", "[lobby] alice: hi\n[lobby] bob: yo\n")],
    nextId := 1 }

/-- Witness for C5 at the concrete state cs5. -/
theorem join_room_replays_history_witness :
    ∃ s2, handleJoinRoom cs5 7 { mtype := "join_room", content := "lobby" } =
        some (s2, (scanLines "[lobby] alice: hi\n[lobby] bob: yo\n").map (fun l => (7, historyMsg l)) ++
                  [(7, infoMsg "Joined room successfully")]) ∧
      ∀ p ∈ (scanLines "[lobby] alice: hi\n[lobby] bob: yo\n").map (fun l => (7, historyMsg l)) ++
            [(7, infoMsg "Joined room successfully")], p.1 = 7 :=
  join_room_replays_history cs5 7 0
    { username := "alice", password := "pw", conn := some 7, room := "" }
    "lobby" "[lobby] alice: hi\n[lobby] bob: yo\n" []
    (by decide) (by decide) (by decide) (by decide)

/-- State for C6: alice is registered but no connection is bound in the
clients registry; room lobby exists. -/
def cs6 : ServerState :=
  { users := [("alice", 0)],
    clients := [],
    rooms := [("lobby", [])],
    heap := [(0, { username := "alice", password := "pw", conn := none, room := "" })],
    files := [],
    nextId := 1 }

/-- C6: dispatched events from a connection with no bound session:
join_room on an existing room, leave_room, broadcast and dm all dereference
the nil User record obtained from the clients registry and panic (modelled
as none), aborting the whole process instead of returning an error event to
the originating connection. -/
theorem unauthenticated_events_crash :
    handleEvent cs6 5 { mtype := "join_room", content := "lobby" } [] = none ∧
    handleEvent cs6 5 { mtype := "leave_room" } [] = none ∧
    handleEvent cs6 5 { mtype := "broadcast", sender := "x", content := "hi" } [] = none ∧
    handleEvent cs6 5 { mtype := "dm", sender := "x", target := "y", content := "hi" } [] = none := by
  decide

/-- C7: when the push to member B fails during a broadcast fanout, B's
connection is deleted from the clients registry, the rooms registry (hence
B's membership) is untouched, delivery still reaches every other member,
and the emitted events are exactly the deliveries, so no error reaches the
sender. -/
theorem fanout_failure_cleanup
    (s : ServerState) (ws ca cb cc ia ib ic : Nat) (A B C : UserRec)
    (r cnt : String)
    (hws : lookupA s.clients ws = some ia)
    (hA : lookupA s.heap ia = some A)
    (hB : lookupA s.heap ib = some B)
    (hC : lookupA s.heap ic = some C)
    (hAroom : A.room = r) (hr : r ≠ "")
    (hmem : lookupA s.rooms r = some [ia, ib, ic])
    (hAc : A.conn = some ca) (hBc : B.conn = some cb) (hCc : C.conn = some cc)
    (hacb : ca ≠ cb) (hccb : cc ≠ cb) :
    (handleChat s ws { mtype := "broadcast", sender := A.username, content := cnt } [cb]).map Prod.snd =
      some [(ca, { mtype := "broadcast", sender := A.username, content := cnt, room := r }),
            (cc, { mtype := "broadcast", sender := A.username, content := cnt, room := r })] ∧
    (handleChat s ws { mtype := "broadcast", sender := A.username, content := cnt } [cb]).map
        (fun r2 => r2.1.clients) = some (eraseA s.clients cb) ∧
    (handleChat s ws { mtype := "broadcast", sender := A.username, content := cnt } [cb]).map
        (fun r2 => r2.1.rooms) = some s.rooms := by
  refine ⟨?_, ?_, ?_⟩ <;>
    simp [handleChat, hws, hA, hAroom, hr, hmem, fanout, hB, hC, hAc, hBc, hCc,
      hacb, hccb]

/-- Witness for C7 at the concrete three-member state, with the push to
connection 11 (bob) failing. -/
theorem fanout_failure_cleanup_witness :
    (handleChat exState 10 { mtype := "broadcast", sender := "alice", content := "hi" } [11]).map Prod.snd =
      some [(10, { mtype := "broadcast", sender := "alice", content := "hi", room := "lobby" }),
            (12, { mtype := "broadcast", sender := "alice", content := "hi", room := "lobby" })] ∧
    (handleChat exState 10 { mtype := "broadcast", sender := "alice", content := "hi" } [11]).map
        (fun r2 => r2.1.clients) = some (eraseA exState.clients 11) ∧
    (handleChat exState 10 { mtype := "broadcast", sender := "alice", content := "hi" } [11]).map
        (fun r2 => r2.1.rooms) = some exState.rooms :=
  fanout_failure_cleanup exState 10 10 11 12 0 1 2 aliceR bobR carolR "lobby" "hi"
    (by decide) (by decide) (by decide) (by decide) (by decide) (by decide) (by decide)
    (by decide) (by decide) (by decide) (by decide) (by decide)

theorem string_append_empty (s : String) : s ++ "" = s := by
  apply string_ext
  rw [string_toList_append]
  show s.toList ++ [] = s.toList
  rw [List.append_nil]

theorem string_empty_append (s : String) : "" ++ s = s := by
  apply string_ext
  rw [string_toList_append]
  rfl

theorem string_append_assoc (a b c : String) : a ++ b ++ c = a ++ (b ++ c) := by
  apply string_ext
  rw [string_toList_append, string_toList_append, string_toList_append,
    string_toList_append, List.append_assoc]

theorem lineOf_no_char (m : Message) (c : Char)
    (h1 : c ∉ m.room.toList) (h2 : c ∉ m.sender.toList) (h3 : c ∉ m.content.toList)
    (h4 : c ∉ "[".toList) (h5 : c ∉ "] ".toList) (h6 : c ∉ ": ".toList) :
    c ∉ (lineOf m).toList := by
  rw [lineOf]
  simp only [string_toList_append, List.mem_append, not_or]
  exact ⟨⟨⟨⟨⟨h4, h1⟩, h5⟩, h2⟩, h6⟩, h3⟩

/-- The contents of the lobby file after folding saveMessageToFile over a
list of lobby records: the prior contents followed by the formatted lines
in order. -/
theorem foldl_save_lobby (ms : List Message) (files : List (String × String))
    (pre : String)
    (hms : ∀ m ∈ ms, m.room = "lobby")
    (hf : lookupA files "lobby" = some pre) :
    lookupA (ms.foldl saveMessageToFile files) "lobby" = some (pre ++ concatLines ms) := by
  induction ms generalizing files pre with
  | nil =>
    rw [List.foldl_nil, hf]
    rw [show concatLines [] = "" from rfl, string_append_empty]
  | cons m t ih =>
    have hm : m.room = "lobby" := hms m (List.mem_cons_self m t)
    have ht : ∀ x ∈ t, x.room = "lobby" := fun x hx => hms x (List.mem_cons_of_mem m hx)
    have hsave : lookupA (saveMessageToFile files m) "lobby" = some (pre ++ formatLine m) := by
      simp [saveMessageToFile, hm, hf, lookupA_insertA_self]
    rw [List.foldl_cons, ih (saveMessageToFile files m) (pre ++ formatLine m) ht hsave]
    rw [show concatLines (m :: t) = formatLine m ++ concatLines t from rfl,
      string_append_assoc]

/-- Scanning the concatenation of formatted lines recovers the lines, when
no line holds a newline or carriage return. -/
theorem scanLines_concatLines (ms : List Message)
    (hms : ∀ m ∈ ms, '\n' ∉ (lineOf m).toList ∧ '\r' ∉ (lineOf m).toList) :
    scanLines (concatLines ms) = ms.map lineOf := by
  induction ms with
  | nil => rfl
  | cons m t ih =>
    obtain ⟨h1, h2⟩ := hms m (List.mem_cons_self m t)
    have ht := fun x hx => hms x (List.mem_cons_of_mem m hx)
    show scanLines (lineOf m ++ "\n" ++ concatLines t) = lineOf m :: t.map lineOf
    rw [scanLines_cons_line _ _ h1 h2, ih ht]

/-- C8 counterexample: one record whose content holds a newline is written
as two file lines, so replaying lobby yields two history events, not the
single appended record. -/
theorem roundtrip_counterexample :
    sendChatHistory
        (saveMessageToFile [] { mtype := "broadcast", sender := "s", content := "a\nb", room := "lobby" })
        "lobby" = [historyMsg "[lobby] s: a", historyMsg "b"] ∧
    sendChatHistory
        (saveMessageToFile [] { mtype := "broadcast", sender := "s", content := "a\nb", room := "lobby" })
        "lobby" ≠ [historyMsg "[lobby] s: a\nb"] := by
  decide

/-- C8 amended: the round-trip holds for records whose sender and content
hold no newline and no carriage return: appending N such records to room
lobby, starting with no lobby file, then replaying lobby yields exactly the
N formatted record lines in the original append order. -/
theorem history_roundtrip
    (files : List (String × String)) (ms : List Message)
    (hf : lookupA files "lobby" = none)
    (hms : ∀ m ∈ ms, m.room = "lobby" ∧ '\n' ∉ m.sender.toList ∧ '\n' ∉ m.content.toList ∧
           '\r' ∉ m.sender.toList ∧ '\r' ∉ m.content.toList) :
    sendChatHistory (ms.foldl saveMessageToFile files) "lobby" =
      ms.map (fun m => historyMsg (lineOf m)) := by
  have hlines : ∀ m ∈ ms, '\n' ∉ (lineOf m).toList ∧ '\r' ∉ (lineOf m).toList := by
    intro m hm
    obtain ⟨hrm, hs1, hc1, hs2, hc2⟩ := hms m hm
    constructor
    · exact lineOf_no_char m '\n' (by rw [hrm]; decide) hs1 hc1
        (by decide) (by decide) (by decide)
    · exact lineOf_no_char m '\r' (by rw [hrm]; decide) hs2 hc2
        (by decide) (by decide) (by decide)
  cases ms with
  | nil =>
    rw [List.foldl_nil]
    simp [sendChatHistory, hf]
    rfl
  | cons m t =>
    have hm : m.room = "lobby" := (hms m (List.mem_cons_self m t)).1
    have ht : ∀ x ∈ t, x.room = "lobby" := fun x hx => (hms x (List.mem_cons_of_mem m hx)).1
    have hsave : lookupA (saveMessageToFile files m) "lobby" = some (formatLine m) := by
      simp [saveMessageToFile, hm, hf, lookupA_insertA_self, string_empty_append]
    have hfold := foldl_save_lobby t (saveMessageToFile files m) (formatLine m) ht hsave
    rw [sendChatHistory, List.foldl_cons, hfold]
    show (scanLines (concatLines (m :: t))).map historyMsg = _
    rw [scanLines_concatLines _ hlines]
    simp [List.map_map, Function.comp]

/-- Witness for the amended C8: two newline-free records round-trip. -/
theorem history_roundtrip_witness :
    sendChatHistory
        ([{ mtype := "broadcast", sender := "alice", content := "hi", room := "lobby" },
          { mtype := "dm", sender := "bob", target := "alice", content := "yo", room := "lobby" }].foldl
          saveMessageToFile []) "lobby" =
      [historyMsg "[lobby] alice: hi", historyMsg "[lobby] bob: yo"] :=
  history_roundtrip []
    [{ mtype := "broadcast", sender := "alice", content := "hi", room := "lobby" },
     { mtype := "dm", sender := "bob", target := "alice", content := "yo", room := "lobby" }]
    (by decide) (by decide)

/-- C9: a signup of an absent username stores the credential, and a second
signup of the same username with any credential yields the duplicate error,
leaves the state after the first signup unchanged, and the stored password
is still the original one. -/
theorem signup_duplicate
    (s : ServerState) (ws ws2 : Nat) (u c c2 : String)
    (habs : lookupA s.users u = none) :
    ∃ s1 out1,
      handleSignup s ws { mtype := "signup", sender := u, content := c } = some (s1, out1) ∧
      handleSignup s1 ws2 { mtype := "signup", sender := u, content := c2 } =
        some (s1, [(ws2, errMsg "Username already exists")]) ∧
      ∃ uid rec2, lookupA s1.users u = some uid ∧ lookupA s1.heap uid = some rec2 ∧
        rec2.password = c := by
  refine ⟨({ s with users := insertA s.users u s.nextId,
                    heap := insertA s.heap s.nextId { username := u, password := c },
                    nextId := s.nextId + 1 } : ServerState),
          [(ws, infoMsg "Signup successful")], ?_, ?_,
          s.nextId, { username := u, password := c }, ?_, ?_, rfl⟩
  · simp [handleSignup, habs]
  · simp [handleSignup, lookupA_insertA_self]
  · simp [lookupA_insertA_self]
  · simp [lookupA_insertA_self]

/-- Witness for C9 from the empty state. -/
theorem signup_duplicate_witness :
    ∃ s1 out1,
      handleSignup emptyState 0 { mtype := "signup", sender := "alice", content := "pw1" } =
        some (s1, out1) ∧
      handleSignup s1 1 { mtype := "signup", sender := "alice", content := "pw2" } =
        some (s1, [(1, errMsg "Username already exists")]) ∧
      ∃ uid rec2, lookupA s1.users "alice" = some uid ∧ lookupA s1.heap uid = some rec2 ∧
        rec2.password = "pw1" :=
  signup_duplicate emptyState 0 1 "alice" "pw1" "pw2" (by decide)

/-- C10: the full result of a chat event is identical whichever bound
session sent it, provided both sessions are in the same non-empty room: the
dm delivery set is computed from the member list and the declared Sender
and Target fields of the event alone, so a client declaring another user
as Sender is treated as that user for delivery purposes. -/
theorem chat_ignores_bound_identity
    (s : ServerState) (ws1 ws2 i1 i2 : Nat) (u1 u2 : UserRec)
    (msg : Message) (fails : List Nat)
    (h1 : lookupA s.clients ws1 = some i1)
    (h2 : lookupA s.clients ws2 = some i2)
    (hu1 : lookupA s.heap i1 = some u1)
    (hu2 : lookupA s.heap i2 = some u2)
    (hroom : u1.room = u2.room) (hne : u1.room ≠ "") :
    handleChat s ws1 msg fails = handleChat s ws2 msg fails := by
  have hne2 : u2.room ≠ "" := hroom ▸ hne
  simp [handleChat, h1, h2, hu1, hu2, hroom, hne2]

/-- Witness for C10: a dm with Sender alice and Target bob gives the same
result whether the session of alice (connection 10) or the session of
carol (connection 12) sends it. -/
theorem chat_ignores_bound_identity_witness :
    handleChat exState 10 { mtype := "dm", sender := "alice", target := "bob", content := "hi" } [] =
      handleChat exState 12 { mtype := "dm", sender := "alice", target := "bob", content := "hi" } [] :=
  chat_ignores_bound_identity exState 10 12 0 2 aliceR carolR
    { mtype := "dm", sender := "alice", target := "bob", content := "hi" } []
    (by decide) (by decide) (by decide) (by decide) (by decide) (by decide)

end Chat
